import Mathlib

/-!
Verification development for the Diagnostic-AI proxy handlers.

The repository holds four serverless handler variants that proxy requests to
the OpenAI chat-completion endpoint:

* `aiProxyNetlify`       — `src/ai-proxy.js` (Netlify, structured-prompt mode,
  access-token check);
* `aiProxyVercelStructured` — first handler in `src/api/ai-proxy.js` (Vercel,
  structured-prompt mode);
* `aiProxyVercelPassthrough` — second handler in `src/api/ai-proxy.js`
  (Vercel, raw-passthrough mode);
* `aiProxyPart000`       — `src/unnamed/part_000` (Netlify, passthrough of the
  caller-supplied `messages`).

The embedding is shallow: JavaScript JSON values become the inductive `Json`;
each handler becomes a pure function from the configured API key, the inbound
request and the (oracle) outcome of the single outbound `fetch` to a response
together with the list of outbound calls actually issued.  JavaScript
semantics that the handlers rely on — truthiness, member access throwing on
`null`/`undefined`, optional chaining, `JSON.parse` / `JSON.stringify` — are
modelled explicitly below.
-/

/-- JavaScript JSON values.  Numeric literals are kept as their source text
(`num "0.2"`), which sidesteps floating point while still letting payloads
carry the numeric sampling parameters verbatim. -/
inductive Json where
  | null : Json
  | bool : Bool → Json
  | num : String → Json
  | str : String → Json
  | arr : List Json → Json
  | obj : List (String × Json) → Json

/-- Last-binding-wins association lookup, matching how duplicate keys behave
in JavaScript objects produced by `JSON.parse`. -/
def lookupField : List (String × Json) → String → Option Json
  | [], _ => none
  | (k, v) :: rest, key =>
    match lookupField rest key with
    | some w => some w
    | none => if k = key then some v else none

/-- Is this value JSON `null`?  (Stands in for the `v == null` tests implied
by destructuring/member-access semantics.) -/
def Json.isNull : Json → Bool
  | .null => true
  | _ => false

/-- JavaScript truthiness of a JSON value. -/
def Json.truthy : Json → Bool
  | .null => false
  | .bool b => b
  | .num l => l != "0" && l != "-0"
  | .str s => s != ""
  | .arr _ => true
  | .obj _ => true

/-- Truthiness of a possibly-`undefined` value (`none` = `undefined`). -/
def truthyOpt : Option Json → Bool
  | none => false
  | some v => v.truthy

/-- A JavaScript exception value: its message and (never consulted by the
handlers) its stack trace. -/
structure JsError where
  message : String
  stack : String
deriving DecidableEq, Repr

/-- The `TypeError` raised by member access / destructuring on `null` or
`undefined`. -/
def typeErrorOnNull (field : String) : JsError :=
  ⟨"TypeError: Cannot read properties of null (reading " ++ field ++ ")", ""⟩

/-- The error raised by `JSON.parse` on malformed input (the exact message
text varies by engine; the handlers only ever relay it opaquely). -/
def jsonParseError : JsError :=
  ⟨"SyntaxError: Unexpected token in JSON", ""⟩

/-- Plain field read on a non-null value: `undefined` when the value is not
an object or lacks the key (JavaScript never throws here unless the base is
`null`/`undefined`). -/
def getFieldJS (v : Json) (k : String) : Option Json :=
  match v with
  | .obj fs => lookupField fs k
  | _ => none

/-- JavaScript member access `v.k`: throws a `TypeError` on `null`, otherwise
yields the field or `undefined`. -/
def jsGet (v : Json) (k : String) : Except JsError (Option Json) :=
  match v with
  | .null => .error (typeErrorOnNull k)
  | .obj fs => .ok (lookupField fs k)
  | _ => .ok none

/-- Member access on a possibly-`undefined` base, as in `x.k` where `x` came
from a previous lookup: throws on `undefined` and on `null`. -/
def jsGetOpt (v : Option Json) (k : String) : Except JsError (Option Json) :=
  match v with
  | none => .error (typeErrorOnNull k)
  | some w => jsGet w k

/-- Optional-chaining member access `x?.k`: short-circuits to `undefined` on
`null`/`undefined`, never throws. -/
def optChainField (v : Option Json) (k : String) : Option Json :=
  match v with
  | some w => getFieldJS w k
  | none => none

/-- Optional-chaining index access `x?.[i]`. -/
def optChainIndex (v : Option Json) (i : Nat) : Option Json :=
  match v with
  | some (.arr xs) => xs.get? i
  | _ => none

mutual

/-- String coercion of a JSON value, as performed by template literals and by
`JSON.parse` on a non-string argument. -/
def jsToString : Json → String
  | .null => "null"
  | .bool b => cond b "true" "false"
  | .num l => l
  | .str s => s
  | .arr xs => jsToStringList xs
  | .obj _ => "[object Object]"

/-- `Array.prototype.toString`: elements joined by commas. -/
def jsToStringList : List Json → String
  | [] => ""
  | [x] => jsToString x
  | x :: xs => jsToString x ++ "," ++ jsToStringList xs

end

/-- Coercion of a possibly-`undefined` value inside a template literal. -/
def jsToStringOpt : Option Json → String
  | none => "undefined"
  | some v => jsToString v

/-- JSON string escaping used by `JSON.stringify`. -/
def escapeJson (s : String) : String :=
  String.mk (s.data.foldr (fun c acc =>
    if c = '"' then '\\' :: '"' :: acc
    else if c = '\\' then '\\' :: '\\' :: acc
    else if c = '\n' then '\\' :: 'n' :: acc
    else if c = '\t' then '\\' :: 't' :: acc
    else if c = '\r' then '\\' :: 'r' :: acc
    else c :: acc) [])

mutual

/-- `JSON.stringify` on a JSON value (fields holding `undefined` are dropped
at construction sites, matching JavaScript). -/
def Json.stringify : Json → String
  | .null => "null"
  | .bool b => cond b "true" "false"
  | .num l => l
  | .str s => "\"" ++ escapeJson s ++ "\""
  | .arr xs => "[" ++ stringifyElems xs ++ "]"
  | .obj fs => "\x7b" ++ stringifyMembers fs ++ "\x7d"

/-- Serialize array elements, comma separated. -/
def stringifyElems : List Json → String
  | [] => ""
  | [x] => Json.stringify x
  | x :: xs => Json.stringify x ++ "," ++ stringifyElems xs

/-- Serialize object members, comma separated. -/
def stringifyMembers : List (String × Json) → String
  | [] => ""
  | [(k, v)] => "\"" ++ escapeJson k ++ "\":" ++ Json.stringify v
  | (k, v) :: fs =>
    "\"" ++ escapeJson k ++ "\":" ++ Json.stringify v ++ "," ++ stringifyMembers fs

end

/-- Skip JSON whitespace. -/
def skipWs : List Char → List Char
  | c :: cs => if c = ' ' ∨ c = '\n' ∨ c = '\t' ∨ c = '\r' then skipWs cs else c :: cs
  | [] => []

/-- Unescape one JSON string escape character. -/
def unescapeChar (e : Char) : Option Char :=
  if e = '"' ∨ e = '\\' ∨ e = '/' then some e
  else if e = 'n' then some '\n'
  else if e = 't' then some '\t'
  else if e = 'r' then some '\r'
  else none

/-- Parse the body of a JSON string up to the closing quote (fuelled). -/
def parseStringChars : Nat → List Char → Option (List Char × List Char)
  | 0, _ => none
  | _ + 1, [] => none
  | fuel + 1, c :: cs =>
    if c = '"' then some ([], cs)
    else if c = '\\' then
      match cs with
      | e :: cs2 =>
        match unescapeChar e with
        | some c2 =>
          match parseStringChars fuel cs2 with
          | some (body, rest) => some (c2 :: body, rest)
          | none => none
        | none => none
      | [] => none
    else
      match parseStringChars fuel cs with
      | some (body, rest) => some (c :: body, rest)
      | none => none

/-- Take a run of decimal digits. -/
def takeDigits : List Char → (List Char × List Char)
  | [] => ([], [])
  | c :: cs =>
    if c.isDigit then
      let (ds, rest) := takeDigits cs
      (c :: ds, rest)
    else ([], c :: cs)

mutual

/-- Fuelled parser for one JSON value (integer numerals, strings with the
basic escapes, arrays, objects — the JSON fragment this repository
exchanges).  Returns the value and the unconsumed input. -/
def parseVal : Nat → List Char → Option (Json × List Char)
  | 0, _ => none
  | fuel + 1, input =>
    match skipWs input with
    | [] => none
    | 'n' :: 'u' :: 'l' :: 'l' :: rest => some (.null, rest)
    | 't' :: 'r' :: 'u' :: 'e' :: rest => some (.bool true, rest)
    | 'f' :: 'a' :: 'l' :: 's' :: 'e' :: rest => some (.bool false, rest)
    | '"' :: rest =>
      match parseStringChars fuel rest with
      | some (body, rest2) => some (.str (String.mk body), rest2)
      | none => none
    | '[' :: rest =>
      (match skipWs rest with
       | ']' :: rest2 => some (.arr [], rest2)
       | other =>
         match parseElems fuel other with
         | some (xs, rest2) => some (.arr xs, rest2)
         | none => none)
    | '\x7b' :: rest =>
      (match skipWs rest with
       | '\x7d' :: rest2 => some (.obj [], rest2)
       | other =>
         match parseMembers fuel other with
         | some (fs, rest2) => some (.obj fs, rest2)
         | none => none)
    | '-' :: c :: rest =>
      if c.isDigit then
        let (ds, rest2) := takeDigits rest
        some (.num (String.mk ('-' :: c :: ds)), rest2)
      else none
    | c :: rest =>
      if c.isDigit then
        let (ds, rest2) := takeDigits rest
        some (.num (String.mk (c :: ds)), rest2)
      else none

/-- Fuelled parser for the elements of a non-empty JSON array, consuming the
closing bracket. -/
def parseElems : Nat → List Char → Option (List Json × List Char)
  | 0, _ => none
  | fuel + 1, input =>
    match parseVal fuel input with
    | some (x, rest) =>
      (match skipWs rest with
       | ',' :: rest2 =>
         (match parseElems fuel rest2 with
          | some (xs, rest3) => some (x :: xs, rest3)
          | none => none)
       | ']' :: rest2 => some ([x], rest2)
       | _ => none)
    | none => none

/-- Fuelled parser for the members of a non-empty JSON object, consuming the
closing brace. -/
def parseMembers : Nat → List Char → Option (List (String × Json) × List Char)
  | 0, _ => none
  | fuel + 1, input =>
    match skipWs input with
    | '"' :: rest =>
      (match parseStringChars fuel rest with
       | some (key, rest2) =>
         (match skipWs rest2 with
          | ':' :: rest3 =>
            (match parseVal fuel rest3 with
             | some (v, rest4) =>
               (match skipWs rest4 with
                | ',' :: rest5 =>
                  (match parseMembers fuel rest5 with
                   | some (fs, rest6) => some ((String.mk key, v) :: fs, rest6)
                   | none => none)
                | '\x7d' :: rest5 => some ([(String.mk key, v)], rest5)
                | _ => none)
             | none => none)
          | _ => none)
       | none => none)
    | _ => none

end

/-- `JSON.parse` on a string: `none` models the thrown `SyntaxError`. -/
def parseJson (s : String) : Option Json :=
  match parseVal (10 * s.length + 10) s.data with
  | some (j, rest) => if skipWs rest = [] then some j else none
  | none => none


/-! ### Requests, responses and the outbound-call oracle -/

/-- A Netlify function event (`src/ai-proxy.js`, `src/unnamed/part_000`):
HTTP method, headers, and the raw request body text. -/
structure NEvent where
  httpMethod : String
  headers : List (String × String)
  body : String

/-- Header lookup (first match; Netlify lowercases and deduplicates). -/
def getHeader : List (String × String) → String → Option String
  | [], _ => none
  | (k, v) :: rest, key => if k = key then some v else getHeader rest key

/-- A Vercel request (`src/api/ai-proxy.js`): the platform has already parsed
the JSON body into `req.body`. -/
structure VercelRequest where
  method : String
  body : Json

/-- Outcome of the single outbound `fetch`, supplied as an oracle: either an
HTTP response (status plus raw body text) or a thrown network error. -/
inductive FetchOutcome where
  | success (status : Nat) (bodyText : String)
  | netError (e : JsError)

/-- Erase the stack trace carried by a transport error; two oracles with the
same scrub are indistinguishable except for stack traces. -/
def FetchOutcome.scrub : FetchOutcome → FetchOutcome
  | .success s b => .success s b
  | .netError e => .netError ⟨e.message, ""⟩

/-- `response.ok` as computed by `fetch`: status in the 2xx range. -/
def okStatus (status : Nat) : Bool := 200 ≤ status && status ≤ 299

/-- `response.statusText` for the status codes relevant here. -/
def statusText (status : Nat) : String :=
  if status = 200 then "OK"
  else if status = 400 then "Bad Request"
  else if status = 401 then "Unauthorized"
  else if status = 404 then "Not Found"
  else if status = 429 then "Too Many Requests"
  else if status = 500 then "Internal Server Error"
  else if status = 502 then "Bad Gateway"
  else if status = 503 then "Service Unavailable"
  else ""

/-- One outbound call to the upstream endpoint: URL, the `Authorization`
header value, and the JSON payload sent as the body. -/
structure OutboundCall where
  url : String
  authorization : String
  payload : Json

/-- A Netlify handler response: status code, headers, and the JavaScript
value assigned to `body` (a string in every branch of the sources). -/
structure NetlifyResponse where
  statusCode : Nat
  headers : List (String × String)
  body : Json

/-- Outcome of a Netlify handler invocation: a returned response, or an
uncaught exception (which the platform turns into a generic error, outside
the handler's control). -/
inductive NOut where
  | resp (r : NetlifyResponse)
  | crash (e : JsError)

/-- Status code of a Netlify outcome (`none` when the handler crashed). -/
def NOut.status : NOut → Option Nat
  | .resp r => some r.statusCode
  | .crash _ => none

/-- A Vercel handler response: status, headers accumulated via `setHeader`,
and the JSON value passed to `res.json` (`none` for `res.end()`). -/
structure VercelResponse where
  status : Nat
  headers : List (String × String)
  body : Option Json

/-- Result of running a handler: its outcome together with the list of
outbound calls it issued (in order). -/
structure Run (ω : Type) where
  out : ω
  calls : List OutboundCall

/-- Truthiness of the configured credential (`!apiKey` in the sources):
`none` models an unset environment variable, `some ""` an empty one. -/
def keyPresent : Option String → Bool
  | none => false
  | some s => s != ""

/-- The recurring `{ error: <msg> }` envelope. -/
def errBody (msg : String) : Json := .obj [("error", .str msg)]

/-- `JSON.stringify` drops object fields holding `undefined`; build such a
field from a possibly-`undefined` value. -/
def fieldIfDefined (k : String) (v : Option Json) : List (String × Json) :=
  match v with
  | some w => [(k, w)]
  | none => []

/-- A Netlify `body: JSON.stringify(x)` — the body value is the serialized
string. -/
def strBody (j : Json) : Json := .str (Json.stringify j)

/-! ### `src/ai-proxy.js` — Netlify structured-prompt handler -/

/-- `OPENAI_MODEL` from `src/ai-proxy.js`. -/
def OPENAI_MODEL : String := "gpt-4o-mini"

/-- `API_BASE_URL` from `src/ai-proxy.js` (also the literal endpoint used by
the other variants). -/
def API_BASE_URL : String := "https://api.openai.com/v1/chat/completions"

/-- The `systemInstruction` template literal of `src/ai-proxy.js`, with the
`language` field interpolated. -/
def systemInstructionNetlify (language : Option Json) : String :=
  "You are a world-class AI diagnostic expert system focused on providing medical analysis and suggesting relevant In Vitro Diagnostic (IVD) tests.\n        Your response MUST be a single JSON object.\n        - Analyze the data provided (department, symptoms, results) and identify potential primary and secondary conditions.\n        - Provide a comprehensive \x27medical_analysis\x27 (string) in the requested language.\n        - Provide a list of top 3-5 \x27suggested_ivd_tests\x27 (array of strings) that are most relevant to confirming the diagnosis.\n        - Respond ONLY in the requested language: " ++
    jsToStringOpt language ++
    ".\n        - The JSON keys MUST be exactly \x27medical_analysis\x27 and \x27suggested_ivd_tests\x27.\n        - Do NOT include any introductory text, markdown formatting (like triple backticks or \x27json\x27), or explanations outside of the JSON block."

/-- The `userPrompt` template literal of `src/ai-proxy.js`. -/
def userPromptNetlify (department symptoms results : Option Json) : String :=
  "Analyze the following patient data for diagnosis and IVD recommendation:\n        Department/Additional Info: " ++ jsToStringOpt department ++
    "\n        Symptoms/Chief Complaint: " ++ jsToStringOpt symptoms ++
    "\n        Clinical History/Test Results: " ++ jsToStringOpt results

/-- The `openaiPayload` object of `src/ai-proxy.js`. -/
def openaiPayloadNetlify (department symptoms results language : Option Json) : Json :=
  .obj [("model", .str OPENAI_MODEL),
        ("response_format", .obj [("type", .str "json_object")]),
        ("temperature", .num "0.2"),
        ("messages", .arr
          [.obj [("role", .str "system"),
                 ("content", .str (systemInstructionNetlify language))],
           .obj [("role", .str "user"),
                 ("content", .str (userPromptNetlify department symptoms results))]])]

/-- Character-list version of `String.prototype.startsWith` (spelled out so
it evaluates by kernel reduction). -/
def isPrefixList : List Char → List Char → Bool
  | c :: cs, d :: ds => c = d && isPrefixList cs ds
  | pre, _ => pre.isEmpty

/-- `a.startsWith(b)` on strings. -/
def strStartsWith (s pre : String) : Bool := isPrefixList pre.data s.data

/-- The access-token condition of `src/ai-proxy.js`:
`!accessToken || !accessToken.startsWith("token-")` rejects, so the request
passes iff the `x-access-token` header is a truthy string beginning with
`token-`. -/
def netlifyTokenValid (event : NEvent) : Bool :=
  match getHeader event.headers "x-access-token" with
  | none => false
  | some t => t != "" && strStartsWith t "token-"

/-- `exports.handler` of `src/ai-proxy.js`: method check, key check, access
token check, body parse, symptoms/results check, single outbound call, error
relay, content extraction. -/
def aiProxyNetlify (apiKey : Option String) (event : NEvent)
    (fetchResult : FetchOutcome) : Run NOut :=
  if event.httpMethod != "POST" then
    ⟨.resp ⟨405, [], strBody (errBody "Method Not Allowed")⟩, []⟩
  else if !(keyPresent apiKey) then
    ⟨.resp ⟨500, [], strBody (errBody "Server configuration error: API Key missing.")⟩, []⟩
  else
    if !(netlifyTokenValid event) then
      ⟨.resp ⟨401, [], strBody (errBody "Unauthorized: Missing or invalid access token.")⟩, []⟩
    else
      match parseJson event.body with
      | none => ⟨.resp ⟨400, [], strBody (errBody "Invalid JSON payload.")⟩, []⟩
      | some clientPayload =>
        -- `const { department, symptoms, results, language } = clientPayload;`
        -- throws outside any try/catch when the parsed payload is `null`
        if clientPayload.isNull then ⟨.crash (typeErrorOnNull "department"), []⟩
        else
          let department := getFieldJS clientPayload "department"
          let symptoms := getFieldJS clientPayload "symptoms"
          let results := getFieldJS clientPayload "results"
          let language := getFieldJS clientPayload "language"
          if !(truthyOpt symptoms) && !(truthyOpt results) then
            ⟨.resp ⟨400, [], strBody (errBody "Symptoms or test results must be provided.")⟩, []⟩
          else
            let call : OutboundCall :=
              ⟨API_BASE_URL, "Bearer " ++ apiKey.getD "",
               openaiPayloadNetlify department symptoms results language⟩
            match fetchResult with
            | .netError e =>
              ⟨.resp ⟨500, [], strBody (errBody ("Server failed to communicate with OpenAI: " ++ e.message))⟩, [call]⟩
            | .success status bodyText =>
              -- `const openaiData = await openaiResponse.json();` (before the ok check)
              match parseJson bodyText with
              | none =>
                ⟨.resp ⟨500, [], strBody (errBody ("Server failed to communicate with OpenAI: " ++ jsonParseError.message))⟩, [call]⟩
              | some openaiData =>
                if !(okStatus status) then
                  match jsGet openaiData "error" with
                  | .error e =>
                    ⟨.resp ⟨500, [], strBody (errBody ("Server failed to communicate with OpenAI: " ++ e.message))⟩, [call]⟩
                  | .ok errVal =>
                    let details : Option Json :=
                      if truthyOpt errVal then optChainField errVal "message"
                      else some (.str "Unknown error.")
                    ⟨.resp ⟨status, [],
                       strBody (.obj ([("error", .str "OpenAI API failed to process the request.")] ++
                         fieldIfDefined "details" details))⟩, [call]⟩
                else
                  match jsGet openaiData "choices" with
                  | .error e =>
                    ⟨.resp ⟨500, [], strBody (errBody ("Server failed to communicate with OpenAI: " ++ e.message))⟩, [call]⟩
                  | .ok choicesVal =>
                    let generatedJsonString :=
                      optChainField (optChainField (optChainIndex choicesVal 0) "message") "content"
                    if !(truthyOpt generatedJsonString) then
                      ⟨.resp ⟨500, [], strBody (errBody "OpenAI response format unexpected.")⟩, [call]⟩
                    else
                      ⟨.resp ⟨200, [("Content-Type", "application/json")],
                         generatedJsonString.getD .null⟩, [call]⟩

/-! ### `src/unnamed/part_000` — Netlify passthrough handler -/

/-- The `openaiPayload` object of `src/unnamed/part_000`: fixed model and
response format, the caller's `messages` passed through verbatim (dropped by
`JSON.stringify` when `undefined`), fixed sampling parameters. -/
def openaiPayloadPart000 (messagesVal : Option Json) : Json :=
  .obj ([("model", .str "gpt-4o-mini"),
         ("response_format", .obj [("type", .str "json_object")])] ++
        fieldIfDefined "messages" messagesVal ++
        [("temperature", .num "0.1"),
         ("max_tokens", .num "2000")])

/-- The generic catch response of `src/unnamed/part_000` (`502 Bad Gateway`
with a fixed message). -/
def part000CatchResp : NetlifyResponse :=
  ⟨502, [], strBody (errBody "AI analysis failed due to an internal server connection error.")⟩

/-- `exports.handler` of `src/unnamed/part_000`: key check first, then method
check, body parse, passthrough payload, single outbound call; on upstream
error it reads `errorBody.error.message`; on success it relays the entire
upstream response object.  There is no field validation and no content
check. -/
def aiProxyPart000 (apiKey : Option String) (event : NEvent)
    (fetchResult : FetchOutcome) : Run NOut :=
  if !(keyPresent apiKey) then
    ⟨.resp ⟨500, [], strBody (errBody "Server configuration error: OpenAI API Key not found.")⟩, []⟩
  else if event.httpMethod != "POST" then
    ⟨.resp ⟨405, [], .str "Method Not Allowed"⟩, []⟩
  else
    match parseJson event.body with
    | none => ⟨.resp ⟨400, [], strBody (errBody "Invalid JSON format in request body.")⟩, []⟩
    | some clientData =>
      -- `messages: clientData.messages` sits outside the try block: a thrown
      -- TypeError (null payload) escapes the handler
      match jsGet clientData "messages" with
      | .error e => ⟨.crash e, []⟩
      | .ok messagesVal =>
        let call : OutboundCall :=
          ⟨API_BASE_URL, "Bearer " ++ apiKey.getD "", openaiPayloadPart000 messagesVal⟩
        match fetchResult with
        | .netError _ => ⟨.resp part000CatchResp, [call]⟩
        | .success status bodyText =>
          if !(okStatus status) then
            -- `const errorBody = await response.json();`
            match parseJson bodyText with
            | none => ⟨.resp part000CatchResp, [call]⟩
            | some errorBody =>
              -- `details: errorBody.error.message` (two plain accesses)
              match jsGet errorBody "error" with
              | .error _ => ⟨.resp part000CatchResp, [call]⟩
              | .ok errVal =>
                match jsGetOpt errVal "message" with
                | .error _ => ⟨.resp part000CatchResp, [call]⟩
                | .ok msgVal =>
                  ⟨.resp ⟨status, [],
                     strBody (.obj ([("error", .str ("OpenAI API Error: " ++ statusText status))] ++
                       fieldIfDefined "details" msgVal))⟩, [call]⟩
          else
            -- `const data = await response.json();` then relay the whole object
            match parseJson bodyText with
            | none => ⟨.resp part000CatchResp, [call]⟩
            | some data =>
              ⟨.resp ⟨200,
                 [("Access-Control-Allow-Origin", "*"), ("Content-Type", "application/json")],
                 strBody data⟩, [call]⟩

/-! ### `src/api/ai-proxy.js` — the two Vercel handlers -/

/-- The three CORS headers set by `res.setHeader` before any branching in
both Vercel handlers; present on every response they produce. -/
def corsHeadersVercel : List (String × String) :=
  [("Access-Control-Allow-Origin", "*"),
   ("Access-Control-Allow-Methods", "POST, OPTIONS"),
   ("Access-Control-Allow-Headers", "Content-Type, Authorization")]

/-- The catch branch shared by both Vercel handlers: 500 with the caught
error's message as `details`. -/
def vercelCatch (e : JsError) (calls : List OutboundCall) : Run VercelResponse :=
  ⟨⟨500, corsHeadersVercel,
    some (.obj [("error", .str "Internal Server Error during execution."),
                ("details", .str e.message)])⟩, calls⟩

/-- The `outputSchema` object of the structured Vercel handler (constructed
by the source but never placed in the outbound payload). -/
def outputSchemaVercel (language : Option Json) : Json :=
  .obj [("type", .str "object"),
        ("properties", .obj
          [("medical_analysis", .obj
            [("type", .str "string"),
             ("description", .str ("Detailed medical analysis and preliminary differential diagnosis based on the provided data, written in " ++ jsToStringOpt language ++ "."))]),
           ("suggested_ivd_tests", .obj
            [("type", .str "array"),
             ("description", .str ("A list of 3-5 necessary In Vitro Diagnostic (IVD) tests to confirm the diagnosis, written in " ++ jsToStringOpt language ++ "."))])]),
        ("required", .arr [.str "medical_analysis", .str "suggested_ivd_tests"])]

/-- The `systemPrompt` template literal of the structured Vercel handler. -/
def systemPromptVercel (language department symptoms results : Option Json) : String :=
  "You are an expert AI diagnostic assistant specializing in laboratory and IVD analysis. \n        Your task is to analyze patient data and provide a medical analysis and suggested IVD tests.\n        You MUST respond only with a single JSON object that conforms strictly to the provided JSON schema.\n        The response MUST be written in the language specified: " ++
    jsToStringOpt language ++
    ".\n        \n        Input Data Summary:\n        - Department/Additional Info: " ++ jsToStringOpt department ++
    "\n        - Symptoms/Complaints: " ++ jsToStringOpt symptoms ++
    "\n        - Clinical History/Test Results: " ++ jsToStringOpt results

/-- The outbound payload of the structured Vercel handler. -/
def payloadVercelStructured (language department symptoms results : Option Json) : Json :=
  .obj [("model", .str "gpt-4-turbo-preview"),
        ("messages", .arr
          [.obj [("role", .str "system"),
                 ("content", .str (systemPromptVercel language department symptoms results))],
           .obj [("role", .str "user"),
                 ("content", .str "Please perform the medical analysis and generate the IVD test recommendations now based on the summarized input data.")]]),
        ("response_format", .obj [("type", .str "json_object")])]

/-- First `module.exports` handler of `src/api/ai-proxy.js` (structured
mode): CORS headers, OPTIONS short-circuit, key check (401), method check,
symptoms/results check, single outbound call, upstream error relay with the
raw error text, content extraction, `JSON.parse` of the generated content. -/
def aiProxyVercelStructured (apiKey : Option String) (req : VercelRequest)
    (fetchResult : FetchOutcome) : Run VercelResponse :=
  if req.method = "OPTIONS" then ⟨⟨200, corsHeadersVercel, none⟩, []⟩
  else if !(keyPresent apiKey) then
    ⟨⟨401, corsHeadersVercel,
      some (.obj [("error", .str "Server configuration error: OpenAI API Key is missing."),
                  ("details", .str "Set OPENAI_API_KEY in Vercel environment variables.")])⟩, []⟩
  else if req.method != "POST" then
    ⟨⟨405, corsHeadersVercel, some (errBody "Method Not Allowed")⟩, []⟩
  else
    -- try { const { department, symptoms, results, language } = req.body;
    if req.body.isNull then vercelCatch (typeErrorOnNull "department") []
    else
      let department := getFieldJS req.body "department"
      let symptoms := getFieldJS req.body "symptoms"
      let results := getFieldJS req.body "results"
      let language := getFieldJS req.body "language"
      if !(truthyOpt symptoms) && !(truthyOpt results) then
        ⟨⟨400, corsHeadersVercel,
          some (errBody "Bad Request: Symptoms or test results are required.")⟩, []⟩
      else
        let call : OutboundCall :=
          ⟨API_BASE_URL, "Bearer " ++ apiKey.getD "",
           payloadVercelStructured language department symptoms results⟩
        match fetchResult with
        | .netError e => vercelCatch e [call]
        | .success status bodyText =>
          if !(okStatus status) then
            -- `const errorBody = await apiResponse.text();` (never throws)
            ⟨⟨status, corsHeadersVercel,
              some (.obj [("error", .str "OpenAI API request failed."),
                          ("details", .str bodyText)])⟩, [call]⟩
          else
            match parseJson bodyText with
            | none => vercelCatch jsonParseError [call]
            | some data =>
              match jsGet data "choices" with
              | .error e => vercelCatch e [call]
              | .ok choicesVal =>
                let generatedJsonText :=
                  optChainField (optChainField (optChainIndex choicesVal 0) "message") "content"
                if !(truthyOpt generatedJsonText) then
                  ⟨⟨500, corsHeadersVercel,
                    some (errBody "AI response format error: Generated content is empty or malformed.")⟩, [call]⟩
                else
                  -- `const finalResult = JSON.parse(generatedJsonText);`
                  match parseJson (jsToString (generatedJsonText.getD .null)) with
                  | none => vercelCatch jsonParseError [call]
                  | some finalResult => ⟨⟨200, corsHeadersVercel, some finalResult⟩, [call]⟩

/-- Second `module.exports` handler of `src/api/ai-proxy.js` (raw
passthrough): same prelude, then the three-field check on
`{model, messages, response_format}` and a verbatim forward of those
fields. -/
def aiProxyVercelPassthrough (apiKey : Option String) (req : VercelRequest)
    (fetchResult : FetchOutcome) : Run VercelResponse :=
  if req.method = "OPTIONS" then ⟨⟨200, corsHeadersVercel, none⟩, []⟩
  else if !(keyPresent apiKey) then
    ⟨⟨401, corsHeadersVercel,
      some (.obj [("error", .str "Server configuration error: OpenAI API Key is missing."),
                  ("details", .str "Set OPENAI_API_KEY in Vercel environment variables.")])⟩, []⟩
  else if req.method != "POST" then
    ⟨⟨405, corsHeadersVercel, some (errBody "Method Not Allowed")⟩, []⟩
  else
    -- try { const { model, messages, response_format } = req.body;
    if req.body.isNull then vercelCatch (typeErrorOnNull "model") []
    else
      let model := getFieldJS req.body "model"
      let messages := getFieldJS req.body "messages"
      let response_format := getFieldJS req.body "response_format"
      if !(truthyOpt model) || !(truthyOpt messages) || !(truthyOpt response_format) then
        ⟨⟨400, corsHeadersVercel,
          some (errBody "Bad Request: Missing required fields (model, messages, or response_format).")⟩, []⟩
      else
        let call : OutboundCall :=
          ⟨API_BASE_URL, "Bearer " ++ apiKey.getD "",
           .obj [("model", model.getD .null),
                 ("messages", messages.getD .null),
                 ("response_format", response_format.getD .null)]⟩
        match fetchResult with
        | .netError e => vercelCatch e [call]
        | .success status bodyText =>
          if !(okStatus status) then
            ⟨⟨status, corsHeadersVercel,
              some (.obj [("error", .str "OpenAI API request failed."),
                          ("details", .str bodyText)])⟩, [call]⟩
          else
            match parseJson bodyText with
            | none => vercelCatch jsonParseError [call]
            | some data =>
              match jsGet data "choices" with
              | .error e => vercelCatch e [call]
              | .ok choicesVal =>
                let generatedJsonText :=
                  optChainField (optChainField (optChainIndex choicesVal 0) "message") "content"
                if !(truthyOpt generatedJsonText) then
                  ⟨⟨500, corsHeadersVercel,
                    some (errBody "AI response format error: Generated content is empty or malformed.")⟩, [call]⟩
                else
                  match parseJson (jsToString (generatedJsonText.getD .null)) with
                  | none => vercelCatch jsonParseError [call]
                  | some finalResult => ⟨⟨200, corsHeadersVercel, some finalResult⟩, [call]⟩

/-! ### Test fixtures shared by witnesses and counterexamples -/

/-- A minimal benign oracle: upstream answers 200 with an empty object. -/
def oracleOkEmpty : FetchOutcome := .success 200 "\x7b\x7d"

/-- An upstream success envelope whose first choice carries the given
content string, in the shape `data.choices[0].message.content`. -/
def upstreamEnvelope (content : String) : Json :=
  .obj [("choices", .arr [.obj [("message", .obj [("content", .str content)])]])]

/-- Is a status a configuration-error status as the spec uses the term
(`500 in most variants, 401 in one`)? -/
def isConfigErrorStatus (n : Nat) : Bool := n = 500 || n = 401

/-! ### C3 — OPTIONS preflight -/

/-- C3 counterexample: the claim says every handler variant answers OPTIONS
with 200 and the CORS headers, but `src/ai-proxy.js` has no preflight branch
and answers 405 even with the credential configured. -/
theorem c3_counterexample :
    (aiProxyNetlify (some "sk-test") ⟨"OPTIONS", [], ""⟩ oracleOkEmpty).out.status =
      some 405 ∧ (405 : Nat) ≠ 200 :=
  ⟨rfl, by decide⟩

/-- C3 (amended): both Vercel handlers answer OPTIONS with 200, no body and
exactly the three CORS headers, for every credential state and oracle, and
make no outbound call; the Netlify handlers have no preflight branch:
`src/ai-proxy.js` answers 405, `src/unnamed/part_000` answers 405 when the
credential is configured and 500 otherwise. -/
theorem c3_options_preflight (key : Option String) (e : NEvent)
    (r : VercelRequest) (o : FetchOutcome)
    (hr : r.method = "OPTIONS") (he : e.httpMethod = "OPTIONS") :
    (aiProxyVercelStructured key r o).out = ⟨200, corsHeadersVercel, none⟩ ∧
    (aiProxyVercelStructured key r o).calls = [] ∧
    (aiProxyVercelPassthrough key r o).out = ⟨200, corsHeadersVercel, none⟩ ∧
    (aiProxyVercelPassthrough key r o).calls = [] ∧
    (aiProxyNetlify key e o).out.status = some 405 ∧
    (aiProxyPart000 key e o).out.status =
      some (if keyPresent key then 405 else 500) := by
  refine ⟨?_, ?_, ?_, ?_, ?_, ?_⟩
  · simp [aiProxyVercelStructured, hr]
  · simp [aiProxyVercelStructured, hr]
  · simp [aiProxyVercelPassthrough, hr]
  · simp [aiProxyVercelPassthrough, hr]
  · simp [aiProxyNetlify, he, NOut.status]
  · cases hk : keyPresent key <;> simp [aiProxyPart000, he, hk, NOut.status]

/-- C3 witness: the amended statement at a concrete OPTIONS request with the
credential absent. -/
theorem c3_options_preflight_witness :
    (aiProxyVercelStructured none ⟨"OPTIONS", .null⟩ oracleOkEmpty).out =
      ⟨200, corsHeadersVercel, none⟩ ∧
    (aiProxyVercelStructured none ⟨"OPTIONS", .null⟩ oracleOkEmpty).calls = [] ∧
    (aiProxyVercelPassthrough none ⟨"OPTIONS", .null⟩ oracleOkEmpty).out =
      ⟨200, corsHeadersVercel, none⟩ ∧
    (aiProxyVercelPassthrough none ⟨"OPTIONS", .null⟩ oracleOkEmpty).calls = [] ∧
    (aiProxyNetlify none ⟨"OPTIONS", [], ""⟩ oracleOkEmpty).out.status = some 405 ∧
    (aiProxyPart000 none ⟨"OPTIONS", [], ""⟩ oracleOkEmpty).out.status =
      some (if keyPresent none then 405 else 500) :=
  c3_options_preflight none ⟨"OPTIONS", [], ""⟩ ⟨"OPTIONS", .null⟩ oracleOkEmpty rfl rfl

/-! ### C4 — non-POST, non-OPTIONS methods -/

/-- C4 counterexample: the claim says a non-POST/non-OPTIONS method yields
405 regardless of configuration state, but the Vercel handlers check the
credential first and answer 401 on a GET when it is absent. -/
theorem c4_counterexample :
    (aiProxyVercelStructured none ⟨"GET", .null⟩ oracleOkEmpty).out.status = 401 ∧
    (401 : Nat) ≠ 405 :=
  ⟨rfl, by decide⟩

/-- C4 (amended): when the credential is configured, every variant answers a
method that is neither POST nor OPTIONS with 405; `src/ai-proxy.js` checks
the method first and answers 405 even without the credential. -/
theorem c4_method_not_allowed (key keyAny : Option String) (e : NEvent)
    (r : VercelRequest) (o : FetchOutcome)
    (hk : keyPresent key = true)
    (hr : r.method ≠ "POST") (hro : r.method ≠ "OPTIONS")
    (he : e.httpMethod ≠ "POST") :
    (aiProxyNetlify keyAny e o).out.status = some 405 ∧
    (aiProxyPart000 key e o).out.status = some 405 ∧
    (aiProxyVercelStructured key r o).out.status = 405 ∧
    (aiProxyVercelPassthrough key r o).out.status = 405 := by
  refine ⟨?_, ?_, ?_, ?_⟩
  · simp [aiProxyNetlify, he, NOut.status]
  · simp [aiProxyPart000, he, hk, NOut.status]
  · simp [aiProxyVercelStructured, hr, hro, hk]
  · simp [aiProxyVercelPassthrough, hr, hro, hk]

/-- C4 witness: the amended statement at a concrete GET request with the
credential configured. -/
theorem c4_method_not_allowed_witness :
    (aiProxyNetlify none ⟨"GET", [], ""⟩ oracleOkEmpty).out.status = some 405 ∧
    (aiProxyPart000 (some "sk-test") ⟨"GET", [], ""⟩ oracleOkEmpty).out.status = some 405 ∧
    (aiProxyVercelStructured (some "sk-test") ⟨"GET", .null⟩ oracleOkEmpty).out.status = 405 ∧
    (aiProxyVercelPassthrough (some "sk-test") ⟨"GET", .null⟩ oracleOkEmpty).out.status = 405 :=
  c4_method_not_allowed (some "sk-test") none ⟨"GET", [], ""⟩ ⟨"GET", .null⟩
    oracleOkEmpty rfl (by decide) (by decide) (by decide)

/-! ### C2 — missing credential -/

/-- C2 counterexample: the claim says that with the credential absent every
request gets a configuration-error status regardless of method, but
`src/ai-proxy.js` checks the method first and answers a GET with 405. -/
theorem c2_counterexample :
    (aiProxyNetlify none ⟨"GET", [], ""⟩ oracleOkEmpty).out.status = some 405 ∧
    isConfigErrorStatus 405 = false :=
  ⟨rfl, by decide⟩

/-- C2 (amended): with the credential absent no variant ever makes an
outbound call, for any method and body; and every POST request receives the
variant's configuration-error status (500 in the Netlify handlers, 401 in
the Vercel handlers). -/
theorem c2_missing_key (key : Option String) (e : NEvent) (r : VercelRequest)
    (o : FetchOutcome) (hk : keyPresent key = false) :
    ((aiProxyNetlify key e o).calls = [] ∧
     (aiProxyPart000 key e o).calls = [] ∧
     (aiProxyVercelStructured key r o).calls = [] ∧
     (aiProxyVercelPassthrough key r o).calls = []) ∧
    (e.httpMethod = "POST" →
      (aiProxyNetlify key e o).out.status = some 500 ∧
      (aiProxyPart000 key e o).out.status = some 500) ∧
    (r.method ≠ "OPTIONS" →
      (aiProxyVercelStructured key r o).out.status = 401 ∧
      (aiProxyVercelPassthrough key r o).out.status = 401) := by
  refine ⟨⟨?_, ?_, ?_, ?_⟩, ?_, ?_⟩
  · by_cases hm : e.httpMethod = "POST" <;> simp [aiProxyNetlify, hm, hk]
  · simp [aiProxyPart000, hk]
  · by_cases hm : r.method = "OPTIONS" <;> simp [aiProxyVercelStructured, hm, hk]
  · by_cases hm : r.method = "OPTIONS" <;> simp [aiProxyVercelPassthrough, hm, hk]
  · intro hm
    constructor <;> simp [aiProxyNetlify, aiProxyPart000, hm, hk, NOut.status]
  · intro hm
    constructor <;>
      simp [aiProxyVercelStructured, aiProxyVercelPassthrough, hm, hk]

/-- C2 witness: the amended statement at a concrete POST request with an
unset credential. -/
theorem c2_missing_key_witness :
    ((aiProxyNetlify none ⟨"POST", [], ""⟩ oracleOkEmpty).calls = [] ∧
     (aiProxyPart000 none ⟨"POST", [], ""⟩ oracleOkEmpty).calls = [] ∧
     (aiProxyVercelStructured none ⟨"POST", .null⟩ oracleOkEmpty).calls = [] ∧
     (aiProxyVercelPassthrough none ⟨"POST", .null⟩ oracleOkEmpty).calls = []) ∧
    ((⟨"POST", [], ""⟩ : NEvent).httpMethod = "POST" →
      (aiProxyNetlify none ⟨"POST", [], ""⟩ oracleOkEmpty).out.status = some 500 ∧
      (aiProxyPart000 none ⟨"POST", [], ""⟩ oracleOkEmpty).out.status = some 500) ∧
    ((⟨"POST", .null⟩ : VercelRequest).method ≠ "OPTIONS" →
      (aiProxyVercelStructured none ⟨"POST", .null⟩ oracleOkEmpty).out.status = 401 ∧
      (aiProxyVercelPassthrough none ⟨"POST", .null⟩ oracleOkEmpty).out.status = 401) :=
  c2_missing_key none ⟨"POST", [], ""⟩ ⟨"POST", .null⟩ oracleOkEmpty rfl

/-! ### Shared lemmas: the exact outbound call a handler issues once its
validation passes -/

/-- When the Netlify structured handler's checks all pass, it issues exactly
the one outbound call built from the request fields, whatever the oracle
answers. -/
theorem aiProxyNetlify_calls (key : Option String) (e : NEvent)
    (o : FetchOutcome) (j : Json)
    (hk : keyPresent key = true) (hm : e.httpMethod = "POST")
    (ht : netlifyTokenValid e = true)
    (hp : parseJson e.body = some j) (hn : j.isNull = false)
    (hcond : (!truthyOpt (getFieldJS j "symptoms") &&
              !truthyOpt (getFieldJS j "results")) = false) :
    (aiProxyNetlify key e o).calls =
      [⟨API_BASE_URL, "Bearer " ++ key.getD "",
        openaiPayloadNetlify (getFieldJS j "department") (getFieldJS j "symptoms")
          (getFieldJS j "results") (getFieldJS j "language")⟩] := by
  simp only [aiProxyNetlify, hm, hk, ht, hp, hn, hcond]
  norm_num
  cases o <;> (repeat' (first | rfl | split))

/-- When the Vercel structured handler's checks all pass, it issues exactly
one outbound call built from the request fields. -/
theorem aiProxyVercelStructured_calls (key : Option String) (r : VercelRequest)
    (o : FetchOutcome)
    (hk : keyPresent key = true) (hm : r.method = "POST")
    (hn : r.body.isNull = false)
    (hcond : (!truthyOpt (getFieldJS r.body "symptoms") &&
              !truthyOpt (getFieldJS r.body "results")) = false) :
    (aiProxyVercelStructured key r o).calls =
      [⟨API_BASE_URL, "Bearer " ++ key.getD "",
        payloadVercelStructured (getFieldJS r.body "language")
          (getFieldJS r.body "department") (getFieldJS r.body "symptoms")
          (getFieldJS r.body "results")⟩] := by
  simp only [aiProxyVercelStructured, hm, hk, hn, hcond]
  norm_num
  cases o <;> (repeat' (first | rfl | split))
  all_goals simp_all

/-- When the Vercel passthrough handler's three-field check passes, it issues
exactly one outbound call forwarding the three fields verbatim. -/
theorem aiProxyVercelPassthrough_calls (key : Option String) (r : VercelRequest)
    (o : FetchOutcome)
    (hk : keyPresent key = true) (hm : r.method = "POST")
    (hn : r.body.isNull = false)
    (h1 : truthyOpt (getFieldJS r.body "model") = true)
    (h2 : truthyOpt (getFieldJS r.body "messages") = true)
    (h3 : truthyOpt (getFieldJS r.body "response_format") = true) :
    (aiProxyVercelPassthrough key r o).calls =
      [⟨API_BASE_URL, "Bearer " ++ key.getD "",
        .obj [("model", (getFieldJS r.body "model").getD .null),
              ("messages", (getFieldJS r.body "messages").getD .null),
              ("response_format", (getFieldJS r.body "response_format").getD .null)]⟩] := by
  simp only [aiProxyVercelPassthrough, hm, hk, hn, h1, h2, h3]
  norm_num
  cases o <;> (repeat' (first | rfl | split))
  all_goals simp_all

/-- The passthrough Netlify handler `src/unnamed/part_000` issues its one
outbound call for every successfully parsed body on which the `messages`
access does not throw — it validates no fields at all. -/
theorem aiProxyPart000_calls (key : Option String) (e : NEvent)
    (o : FetchOutcome) (j : Json) (mv : Option Json)
    (hk : keyPresent key = true) (hm : e.httpMethod = "POST")
    (hp : parseJson e.body = some j) (hmv : jsGet j "messages" = .ok mv) :
    (aiProxyPart000 key e o).calls =
      [⟨API_BASE_URL, "Bearer " ++ key.getD "", openaiPayloadPart000 mv⟩] := by
  simp only [aiProxyPart000, hm, hk, hp, hmv]
  norm_num
  cases o <;> (repeat' (first | rfl | split))

/-! ### C8 — structured mode: symptoms/results requirement -/

/-- C8 counterexample: for the successfully parsed body `null` both fields
are missing, yet the structured Vercel handler answers 500 (the destructuring
of `null` throws and is caught), not the claimed 400. -/
theorem c8_counterexample :
    parseJson "null" = some Json.null ∧
    getFieldJS Json.null "symptoms" = none ∧
    getFieldJS Json.null "results" = none ∧
    (aiProxyVercelStructured (some "sk-test") ⟨"POST", Json.null⟩ oracleOkEmpty).out.status = 500 ∧
    (500 : Nat) ≠ 400 :=
  ⟨rfl, rfl, rfl, rfl, by decide⟩

/-- C8 (amended): in structured-prompt mode, for every successfully parsed
request body other than JSON `null` (on which the field destructuring
throws): if both `symptoms` and `results` are missing the handler returns
400 and makes no outbound call, and if at least one of the two is supplied
(truthy) it makes the outbound call — in both structured variants. -/
theorem c8_structured_required_fields (key : Option String)
    (e1 e2 : NEvent) (j1 j2 : Json) (r1 r2 : VercelRequest)
    (o : FetchOutcome)
    (hk : keyPresent key = true)
    (hm1 : e1.httpMethod = "POST") (hm2 : e2.httpMethod = "POST")
    (ht1 : netlifyTokenValid e1 = true) (ht2 : netlifyTokenValid e2 = true)
    (hp1 : parseJson e1.body = some j1) (hp2 : parseJson e2.body = some j2)
    (hn1 : j1.isNull = false) (hn2 : j2.isNull = false)
    (hmiss1 : getFieldJS j1 "symptoms" = none)
    (hmiss2 : getFieldJS j1 "results" = none)
    (hsup : (truthyOpt (getFieldJS j2 "symptoms") ||
             truthyOpt (getFieldJS j2 "results")) = true)
    (hv1 : r1.method = "POST") (hv2 : r2.method = "POST")
    (hvn1 : r1.body.isNull = false) (hvn2 : r2.body.isNull = false)
    (hvmiss1 : getFieldJS r1.body "symptoms" = none)
    (hvmiss2 : getFieldJS r1.body "results" = none)
    (hvsup : (truthyOpt (getFieldJS r2.body "symptoms") ||
              truthyOpt (getFieldJS r2.body "results")) = true) :
    ((aiProxyNetlify key e1 o).out.status = some 400 ∧
     (aiProxyNetlify key e1 o).calls = []) ∧
    (aiProxyNetlify key e2 o).calls.length = 1 ∧
    ((aiProxyVercelStructured key r1 o).out.status = 400 ∧
     (aiProxyVercelStructured key r1 o).calls = []) ∧
    (aiProxyVercelStructured key r2 o).calls.length = 1 := by
  have hcond2 : (!truthyOpt (getFieldJS j2 "symptoms") &&
      !truthyOpt (getFieldJS j2 "results")) = false := by
    cases hs : truthyOpt (getFieldJS j2 "symptoms") <;>
      cases hr : truthyOpt (getFieldJS j2 "results") <;> simp_all
  have hvcond2 : (!truthyOpt (getFieldJS r2.body "symptoms") &&
      !truthyOpt (getFieldJS r2.body "results")) = false := by
    cases hs : truthyOpt (getFieldJS r2.body "symptoms") <;>
      cases hr : truthyOpt (getFieldJS r2.body "results") <;> simp_all
  refine ⟨⟨?_, ?_⟩, ?_, ⟨?_, ?_⟩, ?_⟩
  · simp [aiProxyNetlify, hm1, hk, ht1, hp1, hn1, hmiss1, hmiss2, truthyOpt, NOut.status]
  · simp [aiProxyNetlify, hm1, hk, ht1, hp1, hn1, hmiss1, hmiss2, truthyOpt]
  · rw [aiProxyNetlify_calls key e2 o j2 hk hm2 ht2 hp2 hn2 hcond2]
    rfl
  · simp [aiProxyVercelStructured, hv1, hk, hvn1, hvmiss1, hvmiss2, truthyOpt]
  · simp [aiProxyVercelStructured, hv1, hk, hvn1, hvmiss1, hvmiss2, truthyOpt]
  · rw [aiProxyVercelStructured_calls key r2 o hk hv2 hvn2 hvcond2]
    rfl

/-- C8 witness: the amended statement at concrete requests — an empty-object
body (both fields missing) and a body supplying only `symptoms`. -/
theorem c8_structured_required_fields_witness :
    ((aiProxyNetlify (some "sk-test")
        ⟨"POST", [("x-access-token", "token-1")], "\x7b\x7d"⟩ oracleOkEmpty).out.status = some 400 ∧
     (aiProxyNetlify (some "sk-test")
        ⟨"POST", [("x-access-token", "token-1")], "\x7b\x7d"⟩ oracleOkEmpty).calls = []) ∧
    (aiProxyNetlify (some "sk-test")
        ⟨"POST", [("x-access-token", "token-1")], "\x7b\"symptoms\":\"cough\"\x7d"⟩ oracleOkEmpty).calls.length = 1 ∧
    ((aiProxyVercelStructured (some "sk-test") ⟨"POST", .obj []⟩ oracleOkEmpty).out.status = 400 ∧
     (aiProxyVercelStructured (some "sk-test") ⟨"POST", .obj []⟩ oracleOkEmpty).calls = []) ∧
    (aiProxyVercelStructured (some "sk-test")
        ⟨"POST", .obj [("symptoms", .str "cough")]⟩ oracleOkEmpty).calls.length = 1 :=
  c8_structured_required_fields (some "sk-test")
    ⟨"POST", [("x-access-token", "token-1")], "\x7b\x7d"⟩
    ⟨"POST", [("x-access-token", "token-1")], "\x7b\"symptoms\":\"cough\"\x7d"⟩
    (.obj []) (.obj [("symptoms", .str "cough")])
    ⟨"POST", .obj []⟩ ⟨"POST", .obj [("symptoms", .str "cough")]⟩
    oracleOkEmpty (by rfl) (by rfl) (by rfl) (by rfl) (by rfl) (by rfl) (by rfl)
    (by rfl) (by rfl) (by rfl) (by rfl) (by rfl) (by rfl) (by rfl) (by rfl)
    (by rfl) (by rfl) (by rfl) (by rfl)

/-! ### C9 — raw passthrough: required fields -/

/-- C9 counterexample: the passthrough Netlify variant `src/unnamed/part_000`
performs no field validation — for the parsed body `{}` (all three fields
missing) it answers 200 and still makes its outbound call. -/
theorem c9_counterexample :
    parseJson "\x7b\x7d" = some (.obj []) ∧
    getFieldJS (Json.obj []) "model" = none ∧
    getFieldJS (Json.obj []) "messages" = none ∧
    getFieldJS (Json.obj []) "response_format" = none ∧
    (aiProxyPart000 (some "sk-test") ⟨"POST", [], "\x7b\x7d"⟩ oracleOkEmpty).out.status = some 200 ∧
    (aiProxyPart000 (some "sk-test") ⟨"POST", [], "\x7b\x7d"⟩ oracleOkEmpty).calls.length = 1 ∧
    (200 : Nat) ≠ 400 :=
  ⟨rfl, rfl, rfl, rfl, rfl, rfl, by decide⟩

/-- C9 (amended): in the Vercel passthrough handler, a parsed body missing
any of `model`, `messages` or `response_format` yields 400 with no outbound
call; the passthrough Netlify variant `src/unnamed/part_000` performs no
such validation and makes its outbound call regardless. -/
theorem c9_passthrough_required_fields (key : Option String)
    (r : VercelRequest) (e : NEvent) (j : Json) (mv : Option Json)
    (o : FetchOutcome)
    (hk : keyPresent key = true)
    (hm : r.method = "POST") (hn : r.body.isNull = false)
    (hmiss : getFieldJS r.body "model" = none ∨
             getFieldJS r.body "messages" = none ∨
             getFieldJS r.body "response_format" = none)
    (hme : e.httpMethod = "POST") (hpe : parseJson e.body = some j)
    (hmv : jsGet j "messages" = .ok mv) :
    ((aiProxyVercelPassthrough key r o).out.status = 400 ∧
     (aiProxyVercelPassthrough key r o).calls = []) ∧
    (aiProxyPart000 key e o).calls.length = 1 := by
  have hcond : (!truthyOpt (getFieldJS r.body "model") ||
      !truthyOpt (getFieldJS r.body "messages") ||
      !truthyOpt (getFieldJS r.body "response_format")) = true := by
    rcases hmiss with h | h | h <;> simp [h, truthyOpt]
  refine ⟨⟨?_, ?_⟩, ?_⟩
  · simp [aiProxyVercelPassthrough, hm, hk, hn, hcond]
  · simp [aiProxyVercelPassthrough, hm, hk, hn, hcond]
  · rw [aiProxyPart000_calls key e o j mv hk hme hpe hmv]
    rfl

/-- C9 witness: the amended statement at concrete requests with empty-object
bodies. -/
theorem c9_passthrough_required_fields_witness :
    ((aiProxyVercelPassthrough (some "sk-test") ⟨"POST", .obj []⟩ oracleOkEmpty).out.status = 400 ∧
     (aiProxyVercelPassthrough (some "sk-test") ⟨"POST", .obj []⟩ oracleOkEmpty).calls = []) ∧
    (aiProxyPart000 (some "sk-test") ⟨"POST", [], "\x7b\x7d"⟩ oracleOkEmpty).calls.length = 1 :=
  c9_passthrough_required_fields (some "sk-test") ⟨"POST", .obj []⟩
    ⟨"POST", [], "\x7b\x7d"⟩ (.obj []) none oracleOkEmpty
    (by rfl) (by rfl) (by rfl) (Or.inl (by rfl)) (by rfl) (by rfl) (by rfl)

/-! ### C10 — validation is by falsiness, not key presence -/

/-- C10 (confirmed): required-field validation uses JavaScript falsiness: a
structured body carrying `symptoms` and `results` as empty strings is
rejected 400 exactly as if absent (both structured variants); a passthrough
body with `model` the empty string is rejected 400; a passthrough body with
`messages` an empty array (truthy) passes validation and is forwarded
upstream. -/
theorem c10_falsiness_validation (key : Option String)
    (e : NEvent) (j : Json) (r r2 r3 : VercelRequest) (o : FetchOutcome)
    (hk : keyPresent key = true)
    (hm : e.httpMethod = "POST") (ht : netlifyTokenValid e = true)
    (hp : parseJson e.body = some j)
    (hs : getFieldJS j "symptoms" = some (.str ""))
    (hr : getFieldJS j "results" = some (.str ""))
    (hv : r.method = "POST")
    (hvs : getFieldJS r.body "symptoms" = some (.str ""))
    (hvr : getFieldJS r.body "results" = some (.str ""))
    (hv2 : r2.method = "POST")
    (h2m : getFieldJS r2.body "model" = some (.str ""))
    (hv3 : r3.method = "POST")
    (h3m : truthyOpt (getFieldJS r3.body "model") = true)
    (h3msgs : getFieldJS r3.body "messages" = some (.arr []))
    (h3rf : truthyOpt (getFieldJS r3.body "response_format") = true) :
    ((aiProxyNetlify key e o).out.status = some 400 ∧
     (aiProxyNetlify key e o).calls = []) ∧
    ((aiProxyVercelStructured key r o).out.status = 400 ∧
     (aiProxyVercelStructured key r o).calls = []) ∧
    ((aiProxyVercelPassthrough key r2 o).out.status = 400 ∧
     (aiProxyVercelPassthrough key r2 o).calls = []) ∧
    (aiProxyVercelPassthrough key r3 o).calls =
      [⟨API_BASE_URL, "Bearer " ++ key.getD "",
        .obj [("model", (getFieldJS r3.body "model").getD .null),
              ("messages", .arr []),
              ("response_format", (getFieldJS r3.body "response_format").getD .null)]⟩] := by
  have hn : j.isNull = false := by
    cases j <;> simp_all [getFieldJS, Json.isNull]
  have hrn : r.body.isNull = false := by
    cases hb : r.body <;> simp_all [getFieldJS, Json.isNull]
  have h2n : r2.body.isNull = false := by
    cases hb : r2.body <;> simp_all [getFieldJS, Json.isNull]
  have h3n : r3.body.isNull = false := by
    cases hb : r3.body <;> simp_all [getFieldJS, Json.isNull]
  have h3msgsT : truthyOpt (getFieldJS r3.body "messages") = true := by
    rw [h3msgs]; rfl
  refine ⟨⟨?_, ?_⟩, ⟨?_, ?_⟩, ⟨?_, ?_⟩, ?_⟩
  · simp [aiProxyNetlify, hm, hk, ht, hp, hn, hs, hr, truthyOpt, Json.truthy, NOut.status]
  · simp [aiProxyNetlify, hm, hk, ht, hp, hn, hs, hr, truthyOpt, Json.truthy]
  · simp [aiProxyVercelStructured, hv, hk, hrn, hvs, hvr, truthyOpt, Json.truthy]
  · simp [aiProxyVercelStructured, hv, hk, hrn, hvs, hvr, truthyOpt, Json.truthy]
  · simp [aiProxyVercelPassthrough, hv2, hk, h2n, h2m, truthyOpt, Json.truthy]
  · simp [aiProxyVercelPassthrough, hv2, hk, h2n, h2m, truthyOpt, Json.truthy]
  · rw [aiProxyVercelPassthrough_calls key r3 o hk hv3 h3n h3m h3msgsT h3rf, h3msgs]
    rfl

/-- C10 witness: the statement at concrete requests — empty-string
`symptoms`/`results`, an empty-string `model`, and an empty `messages`
array alongside truthy `model`/`response_format`. -/
theorem c10_falsiness_validation_witness :
    ((aiProxyNetlify (some "sk-test")
        ⟨"POST", [("x-access-token", "token-1")],
         "\x7b\"symptoms\":\"\",\"results\":\"\"\x7d"⟩ oracleOkEmpty).out.status = some 400 ∧
     (aiProxyNetlify (some "sk-test")
        ⟨"POST", [("x-access-token", "token-1")],
         "\x7b\"symptoms\":\"\",\"results\":\"\"\x7d"⟩ oracleOkEmpty).calls = []) ∧
    ((aiProxyVercelStructured (some "sk-test")
        ⟨"POST", .obj [("symptoms", .str ""), ("results", .str "")]⟩ oracleOkEmpty).out.status = 400 ∧
     (aiProxyVercelStructured (some "sk-test")
        ⟨"POST", .obj [("symptoms", .str ""), ("results", .str "")]⟩ oracleOkEmpty).calls = []) ∧
    ((aiProxyVercelPassthrough (some "sk-test")
        ⟨"POST", .obj [("model", .str "")]⟩ oracleOkEmpty).out.status = 400 ∧
     (aiProxyVercelPassthrough (some "sk-test")
        ⟨"POST", .obj [("model", .str "")]⟩ oracleOkEmpty).calls = []) ∧
    (aiProxyVercelPassthrough (some "sk-test")
        ⟨"POST", .obj [("model", .str "gpt-4o-mini"), ("messages", .arr []),
                       ("response_format", .obj [("type", .str "json_object")])]⟩
        oracleOkEmpty).calls =
      [⟨API_BASE_URL, "Bearer " ++ (some "sk-test").getD "",
        .obj [("model", (getFieldJS (Json.obj [("model", .str "gpt-4o-mini"), ("messages", .arr []),
                       ("response_format", .obj [("type", .str "json_object")])]) "model").getD .null),
              ("messages", .arr []),
              ("response_format", (getFieldJS (Json.obj [("model", .str "gpt-4o-mini"), ("messages", .arr []),
                       ("response_format", .obj [("type", .str "json_object")])]) "response_format").getD .null)]⟩] :=
  c10_falsiness_validation (some "sk-test")
    ⟨"POST", [("x-access-token", "token-1")], "\x7b\"symptoms\":\"\",\"results\":\"\"\x7d"⟩
    (.obj [("symptoms", .str ""), ("results", .str "")])
    ⟨"POST", .obj [("symptoms", .str ""), ("results", .str "")]⟩
    ⟨"POST", .obj [("model", .str "")]⟩
    ⟨"POST", .obj [("model", .str "gpt-4o-mini"), ("messages", .arr []),
                   ("response_format", .obj [("type", .str "json_object")])]⟩
    oracleOkEmpty
    (by rfl) (by rfl) (by rfl) (by rfl) (by rfl) (by rfl) (by rfl) (by rfl)
    (by rfl) (by rfl) (by rfl) (by rfl) (by rfl) (by rfl) (by rfl)

/-! ### C5 — success relay of valid JSON content -/

/-- The exact JSON text of the C5 scenario. -/
def c5ContentText : String :=
  "\x7b\"medical_analysis\":\"x\",\"suggested_ivd_tests\":[\"a\",\"b\"]\x7d"

/-- The object that text denotes. -/
def c5ContentObj : Json :=
  .obj [("medical_analysis", .str "x"),
        ("suggested_ivd_tests", .arr [.str "a", .str "b"])]

theorem parse_c5ContentText : parseJson c5ContentText = some c5ContentObj := by rfl

/-- The full upstream envelope whose first choice carries the C5 content. -/
def c5Envelope : Json := upstreamEnvelope c5ContentText

/-- C5 counterexample: `src/unnamed/part_000` answers the C5 upstream
success with 200 but relays the entire upstream envelope as the body, not
the content object the claim promises for every variant. -/
theorem c5_counterexample :
    (aiProxyPart000 (some "sk-test") ⟨"POST", [], "\x7b\"messages\":[]\x7d"⟩
        (.success 200 (Json.stringify c5Envelope))).out =
      .resp ⟨200, [("Access-Control-Allow-Origin", "*"), ("Content-Type", "application/json")],
             .str (Json.stringify c5Envelope)⟩ ∧
    Json.stringify c5Envelope ≠ c5ContentText :=
  ⟨rfl, by decide⟩

/-- C5 (amended): on an upstream 2xx whose extracted content is exactly the
C5 JSON text, the Netlify structured handler returns 200 with that text as
the body (which parses to exactly the C5 object), both Vercel handlers
return 200 with exactly the parsed C5 object, and `src/unnamed/part_000`
returns 200 with the entire upstream envelope serialized as the body. -/
theorem c5_success_relay (key : Option String)
    (e : NEvent) (j : Json) (mv : Option Json) (r r2 : VercelRequest)
    (status : Nat) (bodyText : String) (d : Json) (cv : Option Json)
    (hk : keyPresent key = true)
    (hm : e.httpMethod = "POST") (ht : netlifyTokenValid e = true)
    (hp : parseJson e.body = some j) (hn : j.isNull = false)
    (hsym : truthyOpt (getFieldJS j "symptoms") = true)
    (hmv : jsGet j "messages" = .ok mv)
    (hv : r.method = "POST") (hrn : r.body.isNull = false)
    (hvsym : truthyOpt (getFieldJS r.body "symptoms") = true)
    (hv2 : r2.method = "POST") (h2n : r2.body.isNull = false)
    (h2a : truthyOpt (getFieldJS r2.body "model") = true)
    (h2b : truthyOpt (getFieldJS r2.body "messages") = true)
    (h2c : truthyOpt (getFieldJS r2.body "response_format") = true)
    (hok : okStatus status = true)
    (hd : parseJson bodyText = some d)
    (hcv : jsGet d "choices" = .ok cv)
    (hex : optChainField (optChainField (optChainIndex cv 0) "message") "content" =
           some (.str c5ContentText)) :
    (aiProxyNetlify key e (.success status bodyText)).out =
      .resp ⟨200, [("Content-Type", "application/json")], .str c5ContentText⟩ ∧
    parseJson c5ContentText = some c5ContentObj ∧
    (aiProxyVercelStructured key r (.success status bodyText)).out =
      ⟨200, corsHeadersVercel, some c5ContentObj⟩ ∧
    (aiProxyVercelPassthrough key r2 (.success status bodyText)).out =
      ⟨200, corsHeadersVercel, some c5ContentObj⟩ ∧
    (aiProxyPart000 key e (.success status bodyText)).out =
      .resp ⟨200, [("Access-Control-Allow-Origin", "*"), ("Content-Type", "application/json")],
             strBody d⟩ := by
  have hcond : (!truthyOpt (getFieldJS j "symptoms") &&
      !truthyOpt (getFieldJS j "results")) = false := by simp [hsym]
  have hvcond : (!truthyOpt (getFieldJS r.body "symptoms") &&
      !truthyOpt (getFieldJS r.body "results")) = false := by simp [hvsym]
  have htr : truthyOpt (some (Json.str c5ContentText)) = true := by rfl
  refine ⟨?_, parse_c5ContentText, ?_, ?_, ?_⟩
  · simp [aiProxyNetlify, hm, hk, ht, hp, hn, hcond, hok, hd, hcv, hex, htr]
  · simp [aiProxyVercelStructured, hv, hk, hrn, hvcond, hok, hd, hcv, hex, htr,
      jsToString, parse_c5ContentText]
  · simp [aiProxyVercelPassthrough, hv2, hk, h2n, h2a, h2b, h2c, hok, hd, hcv, hex, htr,
      jsToString, parse_c5ContentText]
  · simp [aiProxyPart000, hm, hk, hp, hmv, hok, hd]

/-- C5 witness: the amended statement at concrete requests and the concrete
C5 upstream envelope. -/
theorem c5_success_relay_witness :
    (aiProxyNetlify (some "sk-test")
        ⟨"POST", [("x-access-token", "token-1")], "\x7b\"symptoms\":\"cough\"\x7d"⟩
        (.success 200 (Json.stringify c5Envelope))).out =
      .resp ⟨200, [("Content-Type", "application/json")], .str c5ContentText⟩ ∧
    parseJson c5ContentText = some c5ContentObj ∧
    (aiProxyVercelStructured (some "sk-test")
        ⟨"POST", .obj [("symptoms", .str "cough")]⟩
        (.success 200 (Json.stringify c5Envelope))).out =
      ⟨200, corsHeadersVercel, some c5ContentObj⟩ ∧
    (aiProxyVercelPassthrough (some "sk-test")
        ⟨"POST", .obj [("model", .str "gpt-4o-mini"), ("messages", .arr [.str "m"]),
                       ("response_format", .obj [("type", .str "json_object")])]⟩
        (.success 200 (Json.stringify c5Envelope))).out =
      ⟨200, corsHeadersVercel, some c5ContentObj⟩ ∧
    (aiProxyPart000 (some "sk-test")
        ⟨"POST", [("x-access-token", "token-1")], "\x7b\"symptoms\":\"cough\"\x7d"⟩
        (.success 200 (Json.stringify c5Envelope))).out =
      .resp ⟨200, [("Access-Control-Allow-Origin", "*"), ("Content-Type", "application/json")],
             strBody c5Envelope⟩ :=
  c5_success_relay (some "sk-test")
    ⟨"POST", [("x-access-token", "token-1")], "\x7b\"symptoms\":\"cough\"\x7d"⟩
    (.obj [("symptoms", .str "cough")]) none
    ⟨"POST", .obj [("symptoms", .str "cough")]⟩
    ⟨"POST", .obj [("model", .str "gpt-4o-mini"), ("messages", .arr [.str "m"]),
                   ("response_format", .obj [("type", .str "json_object")])]⟩
    200 (Json.stringify c5Envelope) c5Envelope
    (some (.arr [.obj [("message", .obj [("content", .str c5ContentText)])]]))
    (by rfl) (by rfl) (by rfl) (by rfl) (by rfl) (by rfl) (by rfl) (by rfl)
    (by rfl) (by rfl) (by rfl) (by rfl) (by rfl) (by rfl) (by rfl) (by rfl)
    (by rfl) (by rfl) (by rfl)

/-! ### C6 — empty or missing generated content -/

/-- C6 counterexample: `src/unnamed/part_000` has no content check — on an
upstream 2xx whose first-choice content is the empty string it answers 200,
not the claimed 500. -/
theorem c6_counterexample :
    (aiProxyPart000 (some "sk-test") ⟨"POST", [], "\x7b\"messages\":[]\x7d"⟩
        (.success 200 (Json.stringify (upstreamEnvelope "")))).out.status = some 200 ∧
    (200 : Nat) ≠ 500 :=
  ⟨rfl, by decide⟩

/-- C6 (amended): on an upstream 2xx whose extracted first-choice content is
absent or the empty string, the Netlify structured handler and both Vercel
handlers answer 500 with a malformed-response error and never 200;
`src/unnamed/part_000` performs no such check. -/
theorem c6_malformed_content (key : Option String)
    (e : NEvent) (j : Json) (r r2 : VercelRequest)
    (status : Nat) (bodyText : String) (d : Json) (cv : Option Json)
    (hk : keyPresent key = true)
    (hm : e.httpMethod = "POST") (ht : netlifyTokenValid e = true)
    (hp : parseJson e.body = some j) (hn : j.isNull = false)
    (hsym : truthyOpt (getFieldJS j "symptoms") = true)
    (hv : r.method = "POST") (hrn : r.body.isNull = false)
    (hvsym : truthyOpt (getFieldJS r.body "symptoms") = true)
    (hv2 : r2.method = "POST") (h2n : r2.body.isNull = false)
    (h2a : truthyOpt (getFieldJS r2.body "model") = true)
    (h2b : truthyOpt (getFieldJS r2.body "messages") = true)
    (h2c : truthyOpt (getFieldJS r2.body "response_format") = true)
    (hok : okStatus status = true)
    (hd : parseJson bodyText = some d)
    (hcv : jsGet d "choices" = .ok cv)
    (hempty : optChainField (optChainField (optChainIndex cv 0) "message") "content" = none ∨
              optChainField (optChainField (optChainIndex cv 0) "message") "content" =
                some (.str "")) :
    (aiProxyNetlify key e (.success status bodyText)).out.status = some 500 ∧
    (aiProxyVercelStructured key r (.success status bodyText)).out.status = 500 ∧
    (aiProxyVercelPassthrough key r2 (.success status bodyText)).out.status = 500 ∧
    (500 : Nat) ≠ 200 := by
  have hcond : (!truthyOpt (getFieldJS j "symptoms") &&
      !truthyOpt (getFieldJS j "results")) = false := by simp [hsym]
  have hvcond : (!truthyOpt (getFieldJS r.body "symptoms") &&
      !truthyOpt (getFieldJS r.body "results")) = false := by simp [hvsym]
  have hfalsy : truthyOpt (optChainField (optChainField (optChainIndex cv 0) "message")
      "content") = false := by
    rcases hempty with h | h <;> simp [h, truthyOpt, Json.truthy]
  refine ⟨?_, ?_, ?_, by decide⟩
  · simp [aiProxyNetlify, hm, hk, ht, hp, hn, hcond, hok, hd, hcv, hfalsy, NOut.status]
  · simp [aiProxyVercelStructured, hv, hk, hrn, hvcond, hok, hd, hcv, hfalsy]
  · simp [aiProxyVercelPassthrough, hv2, hk, h2n, h2a, h2b, h2c, hok, hd, hcv, hfalsy]

/-- C6 witness: the amended statement at concrete requests and an upstream
200 whose first-choice content is the empty string. -/
theorem c6_malformed_content_witness :
    (aiProxyNetlify (some "sk-test")
        ⟨"POST", [("x-access-token", "token-1")], "\x7b\"symptoms\":\"cough\"\x7d"⟩
        (.success 200 (Json.stringify (upstreamEnvelope "")))).out.status = some 500 ∧
    (aiProxyVercelStructured (some "sk-test")
        ⟨"POST", .obj [("symptoms", .str "cough")]⟩
        (.success 200 (Json.stringify (upstreamEnvelope "")))).out.status = 500 ∧
    (aiProxyVercelPassthrough (some "sk-test")
        ⟨"POST", .obj [("model", .str "gpt-4o-mini"), ("messages", .arr [.str "m"]),
                       ("response_format", .obj [("type", .str "json_object")])]⟩
        (.success 200 (Json.stringify (upstreamEnvelope "")))).out.status = 500 ∧
    (500 : Nat) ≠ 200 :=
  c6_malformed_content (some "sk-test")
    ⟨"POST", [("x-access-token", "token-1")], "\x7b\"symptoms\":\"cough\"\x7d"⟩
    (.obj [("symptoms", .str "cough")])
    ⟨"POST", .obj [("symptoms", .str "cough")]⟩
    ⟨"POST", .obj [("model", .str "gpt-4o-mini"), ("messages", .arr [.str "m"]),
                   ("response_format", .obj [("type", .str "json_object")])]⟩
    200 (Json.stringify (upstreamEnvelope "")) (upstreamEnvelope "")
    (some (.arr [.obj [("message", .obj [("content", .str "")])]]))
    (by rfl) (by rfl) (by rfl) (by rfl) (by rfl) (by rfl) (by rfl) (by rfl)
    (by rfl) (by rfl) (by rfl) (by rfl) (by rfl) (by rfl) (by rfl) (by rfl)
    (by rfl) (Or.inr (by rfl))

/-! ### C7 — upstream error relay -/

/-- C7 counterexample: the claim promises the upstream's status is relayed
for every non-success upstream response, but `src/ai-proxy.js` calls
`.json()` on the upstream body before the ok-check — a 429 with a non-JSON
body lands in the catch branch and is reported as 500, not 429 (the single
outbound call is still made exactly once). -/
theorem c7_counterexample :
    (aiProxyNetlify (some "sk-test")
        ⟨"POST", [("x-access-token", "token-1")], "\x7b\"symptoms\":\"cough\"\x7d"⟩
        (.success 429 "Rate limited")).out.status = some 500 ∧
    (aiProxyNetlify (some "sk-test")
        ⟨"POST", [("x-access-token", "token-1")], "\x7b\"symptoms\":\"cough\"\x7d"⟩
        (.success 429 "Rate limited")).calls.length = 1 ∧
    (500 : Nat) ≠ 429 :=
  ⟨rfl, rfl, by decide⟩

/-- C7 (amended): when the upstream answers a non-2xx status, every variant
makes exactly one outbound call (no retry), whatever the upstream body.  The
two Vercel handlers unconditionally relay that same status with an error
envelope carrying a summary and the raw upstream body text as detail.
`src/ai-proxy.js` relays the same status with an envelope (detail from
`error.message` when `error` is truthy, else a fixed fallback) when its body
parses as JSON to a non-null value; when the body does not parse, or parses
to JSON `null` (the `error` access throws), it answers its generic catch 500
instead.  `src/unnamed/part_000` relays the same status (detail =
`error.message`, dropped when `undefined`) when the body parses to a
non-null value whose `error` field is present and non-null; when the body
does not parse, parses to `null`, or has its `error` field absent or `null`
(the `message` access throws), it answers its generic catch 502 instead. -/
theorem c7_upstream_error_relay (key : Option String)
    (e : NEvent) (j : Json) (r r2 : VercelRequest)
    (status : Nat) (b0 b1 b2 b3 b4 b5 : String)
    (d1 d3 d4 d5 ev4 : Json)
    (hk : keyPresent key = true)
    (hm : e.httpMethod = "POST") (ht : netlifyTokenValid e = true)
    (hp : parseJson e.body = some j) (hn : j.isNull = false)
    (hsym : truthyOpt (getFieldJS j "symptoms") = true)
    (hv : r.method = "POST") (hrn : r.body.isNull = false)
    (hvsym : truthyOpt (getFieldJS r.body "symptoms") = true)
    (hv2 : r2.method = "POST") (h2n : r2.body.isNull = false)
    (h2a : truthyOpt (getFieldJS r2.body "model") = true)
    (h2b : truthyOpt (getFieldJS r2.body "messages") = true)
    (h2c : truthyOpt (getFieldJS r2.body "response_format") = true)
    (hnok : okStatus status = false)
    (hb1 : parseJson b1 = some d1) (hd1n : d1.isNull = false)
    (hb2 : parseJson b2 = none)
    (hb3 : parseJson b3 = some d3) (hd3n : d3.isNull = true)
    (hb4 : parseJson b4 = some d4) (hd4n : d4.isNull = false)
    (hev4 : getFieldJS d4 "error" = some ev4) (hev4n : ev4.isNull = false)
    (hb5 : parseJson b5 = some d5) (hd5n : d5.isNull = false)
    (hev5 : getFieldJS d5 "error" = none ∨ getFieldJS d5 "error" = some Json.null) :
    ((aiProxyVercelStructured key r (.success status b0)).out =
       ⟨status, corsHeadersVercel,
        some (.obj [("error", .str "OpenAI API request failed."),
                    ("details", .str b0)])⟩ ∧
     (aiProxyVercelStructured key r (.success status b0)).calls.length = 1) ∧
    ((aiProxyVercelPassthrough key r2 (.success status b0)).out =
       ⟨status, corsHeadersVercel,
        some (.obj [("error", .str "OpenAI API request failed."),
                    ("details", .str b0)])⟩ ∧
     (aiProxyVercelPassthrough key r2 (.success status b0)).calls.length = 1) ∧
    (aiProxyNetlify key e (.success status b0)).calls.length = 1 ∧
    (aiProxyPart000 key e (.success status b0)).calls.length = 1 ∧
    (aiProxyNetlify key e (.success status b1)).out =
      .resp ⟨status, [],
        strBody (.obj ([("error", .str "OpenAI API failed to process the request.")] ++
          fieldIfDefined "details"
            (if truthyOpt (getFieldJS d1 "error")
             then optChainField (getFieldJS d1 "error") "message"
             else some (.str "Unknown error."))))⟩ ∧
    (aiProxyNetlify key e (.success status b2)).out.status = some 500 ∧
    (aiProxyNetlify key e (.success status b3)).out.status = some 500 ∧
    (aiProxyPart000 key e (.success status b4)).out =
      .resp ⟨status, [],
        strBody (.obj ([("error", .str ("OpenAI API Error: " ++ statusText status))] ++
          fieldIfDefined "details" (getFieldJS ev4 "message")))⟩ ∧
    (aiProxyPart000 key e (.success status b2)).out.status = some 502 ∧
    (aiProxyPart000 key e (.success status b3)).out.status = some 502 ∧
    (aiProxyPart000 key e (.success status b5)).out.status = some 502 := by
  have hcond : (!truthyOpt (getFieldJS j "symptoms") &&
      !truthyOpt (getFieldJS j "results")) = false := by simp [hsym]
  have hvcond : (!truthyOpt (getFieldJS r.body "symptoms") &&
      !truthyOpt (getFieldJS r.body "results")) = false := by simp [hvsym]
  have hmv : jsGet j "messages" = .ok (getFieldJS j "messages") := by
    cases j <;> simp_all [jsGet, getFieldJS, Json.isNull]
  have hg1 : jsGet d1 "error" = .ok (getFieldJS d1 "error") := by
    cases d1 <;> simp_all [jsGet, getFieldJS, Json.isNull]
  have hg4 : jsGet d4 "error" = .ok (some ev4) := by
    cases d4 <;> simp_all [jsGet, getFieldJS, Json.isNull]
  have hg4m : jsGet ev4 "message" = .ok (getFieldJS ev4 "message") := by
    cases ev4 <;> simp_all [jsGet, getFieldJS, Json.isNull]
  have hg5 : jsGet d5 "error" = .ok (getFieldJS d5 "error") := by
    cases d5 <;> simp_all [jsGet, getFieldJS, Json.isNull]
  refine ⟨⟨?_, ?_⟩, ⟨?_, ?_⟩, ?_, ?_, ?_, ?_, ?_, ?_, ?_, ?_, ?_⟩
  · simp [aiProxyVercelStructured, hv, hk, hrn, hvcond, hnok]
  · rw [aiProxyVercelStructured_calls key r _ hk hv hrn hvcond]; rfl
  · simp [aiProxyVercelPassthrough, hv2, hk, h2n, h2a, h2b, h2c, hnok]
  · rw [aiProxyVercelPassthrough_calls key r2 _ hk hv2 h2n h2a h2b h2c]; rfl
  · rw [aiProxyNetlify_calls key e _ j hk hm ht hp hn hcond]; rfl
  · rw [aiProxyPart000_calls key e _ j (getFieldJS j "messages") hk hm hp hmv]; rfl
  · simp [aiProxyNetlify, hm, hk, ht, hp, hn, hcond, hnok, hb1, hg1]
  · simp [aiProxyNetlify, hm, hk, ht, hp, hn, hcond, hnok, hb2, NOut.status]
  · have h3null : d3 = .null := by cases d3 <;> simp_all [Json.isNull]
    subst h3null
    simp [aiProxyNetlify, hm, hk, ht, hp, hn, hcond, hnok, hb3, jsGet, NOut.status]
  · simp [aiProxyPart000, hm, hk, hp, hmv, hnok, hb4, hg4, jsGetOpt, hg4m]
  · simp [aiProxyPart000, hm, hk, hp, hmv, hnok, hb2, part000CatchResp, NOut.status]
  · have h3null : d3 = .null := by cases d3 <;> simp_all [Json.isNull]
    subst h3null
    have hjN : jsGet Json.null "error" = Except.error (typeErrorOnNull "error") := rfl
    simp [aiProxyPart000, hm, hk, hp, hmv, hnok, hb3, hjN, part000CatchResp, NOut.status]
  · have hjU : jsGetOpt none "message" = Except.error (typeErrorOnNull "message") := rfl
    have hjN2 : jsGetOpt (some Json.null) "message" =
        Except.error (typeErrorOnNull "message") := rfl
    rcases hev5 with h5 | h5 <;>
      simp [aiProxyPart000, hm, hk, hp, hmv, hnok, hb5, hg5, h5, hjU, hjN2,
        part000CatchResp, NOut.status]

/-- C7 witness: the amended statement at status 429 with concrete bodies for
every case — a non-JSON body (relayed unconditionally by the Vercel
handlers, generic catch in the Netlify ones), a JSON body carrying
`error.message` (relayed by all), the body `null`, and a JSON object without
an `error` field. -/
theorem c7_upstream_error_relay_witness :
    ((aiProxyVercelStructured (some "sk-test")
        ⟨"POST", .obj [("symptoms", .str "cough")]⟩
        (.success 429 "Rate limited")).out =
       ⟨429, corsHeadersVercel,
        some (.obj [("error", .str "OpenAI API request failed."),
                    ("details", .str "Rate limited")])⟩ ∧
     (aiProxyVercelStructured (some "sk-test")
        ⟨"POST", .obj [("symptoms", .str "cough")]⟩
        (.success 429 "Rate limited")).calls.length = 1) ∧
    ((aiProxyVercelPassthrough (some "sk-test")
        ⟨"POST", .obj [("model", .str "gpt-4o-mini"), ("messages", .arr [.str "m"]),
                       ("response_format", .obj [("type", .str "json_object")])]⟩
        (.success 429 "Rate limited")).out =
       ⟨429, corsHeadersVercel,
        some (.obj [("error", .str "OpenAI API request failed."),
                    ("details", .str "Rate limited")])⟩ ∧
     (aiProxyVercelPassthrough (some "sk-test")
        ⟨"POST", .obj [("model", .str "gpt-4o-mini"), ("messages", .arr [.str "m"]),
                       ("response_format", .obj [("type", .str "json_object")])]⟩
        (.success 429 "Rate limited")).calls.length = 1) ∧
    (aiProxyNetlify (some "sk-test")
        ⟨"POST", [("x-access-token", "token-1")], "\x7b\"symptoms\":\"cough\"\x7d"⟩
        (.success 429 "Rate limited")).calls.length = 1 ∧
    (aiProxyPart000 (some "sk-test")
        ⟨"POST", [("x-access-token", "token-1")], "\x7b\"symptoms\":\"cough\"\x7d"⟩
        (.success 429 "Rate limited")).calls.length = 1 ∧
    (aiProxyNetlify (some "sk-test")
        ⟨"POST", [("x-access-token", "token-1")], "\x7b\"symptoms\":\"cough\"\x7d"⟩
        (.success 429 "\x7b\"error\":\x7b\"message\":\"Rate limit reached\"\x7d\x7d")).out =
      .resp ⟨429, [],
        strBody (.obj ([("error", .str "OpenAI API failed to process the request.")] ++
          fieldIfDefined "details"
            (if truthyOpt (getFieldJS (Json.obj
                  [("error", .obj [("message", .str "Rate limit reached")])]) "error")
             then optChainField (getFieldJS (Json.obj
                  [("error", .obj [("message", .str "Rate limit reached")])]) "error") "message"
             else some (.str "Unknown error."))))⟩ ∧
    (aiProxyNetlify (some "sk-test")
        ⟨"POST", [("x-access-token", "token-1")], "\x7b\"symptoms\":\"cough\"\x7d"⟩
        (.success 429 "Rate limited")).out.status = some 500 ∧
    (aiProxyNetlify (some "sk-test")
        ⟨"POST", [("x-access-token", "token-1")], "\x7b\"symptoms\":\"cough\"\x7d"⟩
        (.success 429 "null")).out.status = some 500 ∧
    (aiProxyPart000 (some "sk-test")
        ⟨"POST", [("x-access-token", "token-1")], "\x7b\"symptoms\":\"cough\"\x7d"⟩
        (.success 429 "\x7b\"error\":\x7b\"message\":\"Rate limit reached\"\x7d\x7d")).out =
      .resp ⟨429, [],
        strBody (.obj ([("error", .str ("OpenAI API Error: " ++ statusText 429))] ++
          fieldIfDefined "details"
            (getFieldJS (Json.obj [("message", .str "Rate limit reached")]) "message")))⟩ ∧
    (aiProxyPart000 (some "sk-test")
        ⟨"POST", [("x-access-token", "token-1")], "\x7b\"symptoms\":\"cough\"\x7d"⟩
        (.success 429 "Rate limited")).out.status = some 502 ∧
    (aiProxyPart000 (some "sk-test")
        ⟨"POST", [("x-access-token", "token-1")], "\x7b\"symptoms\":\"cough\"\x7d"⟩
        (.success 429 "null")).out.status = some 502 ∧
    (aiProxyPart000 (some "sk-test")
        ⟨"POST", [("x-access-token", "token-1")], "\x7b\"symptoms\":\"cough\"\x7d"⟩
        (.success 429 "\x7b\"code\":429\x7d")).out.status = some 502 :=
  c7_upstream_error_relay (some "sk-test")
    ⟨"POST", [("x-access-token", "token-1")], "\x7b\"symptoms\":\"cough\"\x7d"⟩
    (.obj [("symptoms", .str "cough")])
    ⟨"POST", .obj [("symptoms", .str "cough")]⟩
    ⟨"POST", .obj [("model", .str "gpt-4o-mini"), ("messages", .arr [.str "m"]),
                   ("response_format", .obj [("type", .str "json_object")])]⟩
    429 "Rate limited"
    "\x7b\"error\":\x7b\"message\":\"Rate limit reached\"\x7d\x7d"
    "Rate limited" "null"
    "\x7b\"error\":\x7b\"message\":\"Rate limit reached\"\x7d\x7d"
    "\x7b\"code\":429\x7d"
    (.obj [("error", .obj [("message", .str "Rate limit reached")])])
    .null
    (.obj [("error", .obj [("message", .str "Rate limit reached")])])
    (.obj [("code", .num "429")])
    (.obj [("message", .str "Rate limit reached")])
    (by rfl) (by rfl) (by rfl) (by rfl) (by rfl) (by rfl) (by rfl) (by rfl)
    (by rfl) (by rfl) (by rfl) (by rfl) (by rfl) (by rfl) (by rfl) (by rfl)
    (by rfl) (by rfl) (by rfl) (by rfl) (by rfl) (by rfl) (by rfl) (by rfl)
    (by rfl) (by rfl) (Or.inl (by rfl))

/-! ### C1 — the credential and internal exception details never reach the
response -/

set_option maxHeartbeats 1600000 in
/-- C1 (confirmed, as noninterference): for every request and every variant,
the response returned to the caller is unchanged when the configured API key
is replaced by any other configured key, and when the stack trace attached
to a thrown transport error is replaced by any other — so no response value
can carry the server-held credential or an exception's stack trace.  (The
key flows only into the `Authorization` header of the outbound call; catch
branches relay only the exception's message.) -/
theorem c1_response_key_noninterference
    (k1 k2 : Option String) (e : NEvent) (r : VercelRequest)
    (o1 o2 : FetchOutcome)
    (hk : keyPresent k1 = keyPresent k2) (ho : o1.scrub = o2.scrub) :
    (aiProxyNetlify k1 e o1).out = (aiProxyNetlify k2 e o2).out ∧
    (aiProxyPart000 k1 e o1).out = (aiProxyPart000 k2 e o2).out ∧
    (aiProxyVercelStructured k1 r o1).out = (aiProxyVercelStructured k2 r o2).out ∧
    (aiProxyVercelPassthrough k1 r o1).out = (aiProxyVercelPassthrough k2 r o2).out := by
  cases o1 with
  | success s1 b1 =>
    cases o2 with
    | success s2 b2 =>
      obtain ⟨rfl, rfl⟩ : s1 = s2 ∧ b1 = b2 := by
        simpa [FetchOutcome.scrub] using ho
      refine ⟨?_, ?_, ?_, ?_⟩
      · simp only [aiProxyNetlify, hk]
        repeat' (first | split | rfl)
      · simp only [aiProxyPart000, hk]
        repeat' (first | split | rfl)
      · simp only [aiProxyVercelStructured, hk]
        repeat' (first | split | rfl)
      · simp only [aiProxyVercelPassthrough, hk]
        repeat' (first | split | rfl)
    | netError e2 => simp [FetchOutcome.scrub] at ho
  | netError e1 =>
    cases o2 with
    | success s2 b2 => simp [FetchOutcome.scrub] at ho
    | netError e2 =>
      obtain ⟨m1, st1⟩ := e1
      obtain ⟨m2, st2⟩ := e2
      obtain rfl : m1 = m2 := by
        simpa [FetchOutcome.scrub] using ho
      refine ⟨?_, ?_, ?_, ?_⟩
      · simp only [aiProxyNetlify, hk]
        repeat' (first | split | rfl)
      · simp only [aiProxyPart000, hk]
        repeat' (first | split | rfl)
      · simp only [aiProxyVercelStructured, hk]
        repeat' (first | split | rfl)
      · simp only [aiProxyVercelPassthrough, hk]
        repeat' (first | split | rfl)

/-- C1 witness: two distinct configured keys and two transport errors whose
stack traces differ produce identical responses at a concrete request. -/
theorem c1_response_key_noninterference_witness :
    (aiProxyNetlify (some "sk-alpha")
        ⟨"POST", [("x-access-token", "token-1")], "\x7b\"symptoms\":\"cough\"\x7d"⟩
        (.netError ⟨"connect ECONNREFUSED", "at fetch (alpha.js:1:1)"⟩)).out =
      (aiProxyNetlify (some "sk-beta")
        ⟨"POST", [("x-access-token", "token-1")], "\x7b\"symptoms\":\"cough\"\x7d"⟩
        (.netError ⟨"connect ECONNREFUSED", "at fetch (beta.js:9:9)"⟩)).out ∧
    (aiProxyPart000 (some "sk-alpha")
        ⟨"POST", [("x-access-token", "token-1")], "\x7b\"symptoms\":\"cough\"\x7d"⟩
        (.netError ⟨"connect ECONNREFUSED", "at fetch (alpha.js:1:1)"⟩)).out =
      (aiProxyPart000 (some "sk-beta")
        ⟨"POST", [("x-access-token", "token-1")], "\x7b\"symptoms\":\"cough\"\x7d"⟩
        (.netError ⟨"connect ECONNREFUSED", "at fetch (beta.js:9:9)"⟩)).out ∧
    (aiProxyVercelStructured (some "sk-alpha")
        ⟨"POST", .obj [("symptoms", .str "cough")]⟩
        (.netError ⟨"connect ECONNREFUSED", "at fetch (alpha.js:1:1)"⟩)).out =
      (aiProxyVercelStructured (some "sk-beta")
        ⟨"POST", .obj [("symptoms", .str "cough")]⟩
        (.netError ⟨"connect ECONNREFUSED", "at fetch (beta.js:9:9)"⟩)).out ∧
    (aiProxyVercelPassthrough (some "sk-alpha")
        ⟨"POST", .obj [("symptoms", .str "cough")]⟩
        (.netError ⟨"connect ECONNREFUSED", "at fetch (alpha.js:1:1)"⟩)).out =
      (aiProxyVercelPassthrough (some "sk-beta")
        ⟨"POST", .obj [("symptoms", .str "cough")]⟩
        (.netError ⟨"connect ECONNREFUSED", "at fetch (beta.js:9:9)"⟩)).out :=
  c1_response_key_noninterference (some "sk-alpha") (some "sk-beta")
    ⟨"POST", [("x-access-token", "token-1")], "\x7b\"symptoms\":\"cough\"\x7d"⟩
    ⟨"POST", .obj [("symptoms", .str "cough")]⟩
    (.netError ⟨"connect ECONNREFUSED", "at fetch (alpha.js:1:1)"⟩)
    (.netError ⟨"connect ECONNREFUSED", "at fetch (beta.js:9:9)"⟩)
    (by rfl) (by rfl)
